import Mathlib

/-!
Verification of the Auxin backend reservation/payment core.

This file shallowly embeds the appointment-booking and PayPal payment
routes of the repository (the `create-order`, `capture-order`,
`cancel-order`, `cleanup-pending` handlers of the payments router, the
`GET /available` and `PUT /:appointmentId/cancel` handlers of the
appointments router, and `createOrderRequestBody` from `lib/paypal.ts`)
and proves the specification's claims about them.

Conventions of the embedding:
- Timestamps are `Int` epoch milliseconds; the JavaScript local timezone
  is an explicit parameter `off` (offset east of UTC in minutes).
- The Mongo store is a `List Appointment`; `save` replaces the document
  with the same id; `deleteMany` is a filter.
- Outbound PayPal / Google Calendar calls are modelled by explicit
  environment records carrying the outcome of each call, so a handler is
  a pure function from (environment, request, store) to (response, store).
-/

set_option autoImplicit false
set_option maxRecDepth 100000

namespace Auxin

/-- `status` field of an appointment document. -/
inductive Status where
  | pending
  | confirmed
  | cancelled
deriving DecidableEq, Repr

/-- `paymentStatus` field (also `paymentInfo.status`). -/
inductive PayStatus where
  | pending
  | completed
  | failed
deriving DecidableEq, Repr

/-- The `paymentInfo` subdocument of an appointment. -/
structure PaymentInfo where
  amount : String
  currency : String
  status : PayStatus
  paypalOrderId : Option String
  paypalPayerId : Option String
  paypalTransactionId : Option String
  paidAt : Option Int
deriving DecidableEq, Repr

/-- An appointment document of the Mongo `Appointment` collection.
`date` is the stored `Date` in epoch milliseconds (local midnight of the
requested calendar day), `createdAt` the creation timestamp. -/
structure Appointment where
  id : Nat
  userId : String
  userEmail : String
  userName : String
  date : Int
  time : String
  timezone : String
  status : Status
  paymentStatus : PayStatus
  paymentInfo : PaymentInfo
  duration : Option Nat
  endTime : Option String
  bookedSlots : List String
  googleMeetLink : Option String
  googleCalendarEventId : Option String
  categoryId : Option String
  categoryName : Option String
  formAnswers : Option (List (String × String))
  createdAt : Int
deriving DecidableEq, Repr

/-- The `appointment` object embedded in successful JSON responses of the
payment routes: `{id, date, time, status, paymentStatus, googleMeetLink, createdAt}`. -/
structure Snapshot where
  id : Nat
  date : Int
  time : String
  status : Status
  paymentStatus : PayStatus
  googleMeetLink : Option String
  createdAt : Int
deriving DecidableEq, Repr

/-- Response snapshot built from an appointment document
(`googleMeetLink: apt.googleMeetLink || null`). -/
def snapOf (a : Appointment) : Snapshot :=
  { id := a.id, date := a.date, time := a.time, status := a.status,
    paymentStatus := a.paymentStatus, googleMeetLink := a.googleMeetLink,
    createdAt := a.createdAt }

/-! ### String utilities (JS regex tests and `split().map(Number)` parses) -/

/-- Character class `[0-9]`. -/
def isDigit (c : Char) : Bool := '0' ≤ c && c ≤ '9'

/-- Numeric value of a digit character. -/
def digitVal (c : Char) : Nat := c.toNat - '0'.toNat

/-- JS `Number(s)` on a plain digit string. -/
def digitsToNat (cs : List Char) : Nat :=
  cs.foldl (fun n c => n * 10 + digitVal c) 0

/-- JS `String.prototype.split` with a one-character separator. -/
def splitOnChar (sep : Char) : List Char → List (List Char)
  | [] => [[]]
  | c :: rest =>
    match splitOnChar sep rest with
    | [] => [[c]]
    | g :: gs => if c == sep then [] :: g :: gs else (c :: g) :: gs

/-- The route's `/^\d{4}-\d{2}-\d{2}$/` date-format test. -/
def dateRegexTest (s : String) : Bool :=
  match s.toList with
  | [a, b, c, d, e, f, g, h, i, j] =>
      isDigit a && isDigit b && isDigit c && isDigit d && e == '-' &&
      isDigit f && isDigit g && h == '-' && isDigit i && isDigit j
  | _ => false

/-- `date.split('-').map(Number)` on a string matching the date regex:
the `[year, month, day]` components. -/
def parseYMD (s : String) : Nat × Nat × Nat :=
  match splitOnChar '-' s.toList with
  | [ys, ms, ds] => (digitsToNat ys, digitsToNat ms, digitsToNat ds)
  | _ => (0, 0, 0)

/-- The route's `/^([0-1]?[0-9]|2[0-3]):[0-5][0-9]$/` time-format test. -/
def timeRegexTest (s : String) : Bool :=
  match s.toList with
  | [h, c, m1, m2] =>
      isDigit h && c == ':' && ('0' ≤ m1 && m1 ≤ '5') && isDigit m2
  | [h1, h2, c, m1, m2] =>
      (((h1 == '0' || h1 == '1') && isDigit h2) ||
        (h1 == '2' && ('0' ≤ h2 && h2 ≤ '3'))) &&
      c == ':' && ('0' ≤ m1 && m1 ≤ '5') && isDigit m2
  | _ => false

/-- `time.split(':').map(Number)`: the `(hours, minutes)` components. -/
def parseTimeHM (s : String) : Nat × Nat :=
  match splitOnChar ':' s.toList with
  | [hs, ms] => (digitsToNat hs, digitsToNat ms)
  | _ => (0, 0)

/-! ### Calendar arithmetic

JavaScript `Date` values are epoch milliseconds. `dayNumber` is the
standard civil-calendar day count (days since 1970-01-01), matching what
`Date` computes for in-range calendar dates. -/

/-- Milliseconds per day. -/
def dayMs : Int := 86400000

/-- Days since 1970-01-01 of the civil date `(y, m, d)` (standard
days-from-civil algorithm, as JS `Date` computes for valid dates). -/
def dayNumber (y m d : Nat) : Int :=
  let yr : Int := (y : Int) - (if m ≤ 2 then 1 else 0)
  let era : Int := Int.fdiv yr 400
  let yoe : Int := yr - era * 400
  let mp : Int := Int.emod ((m : Int) + 9) 12
  let doy : Int := Int.fdiv (153 * mp + 2) 5 + (d : Int) - 1
  let doe : Int := yoe * 365 + Int.fdiv yoe 4 - Int.fdiv yoe 100 + doy
  era * 146097 + doe - 719468

/-- `new Date(year, month - 1, day)` followed by `setHours(0,0,0,0)`:
local midnight of the civil day, for a zone `off` minutes east of UTC. -/
def localMidnight (off : Int) (y m d : Nat) : Int :=
  dayNumber y m d * dayMs - off * 60000

/-- `new Date("YYYY-MM-DD")`: the date-only ISO form parses as UTC midnight. -/
def utcMidnight (y m d : Nat) : Int :=
  dayNumber y m d * dayMs

/-- `const today = new Date(); today.setHours(0,0,0,0)`: local midnight of
the current day at time `now`. -/
def todayLocal (off now : Int) : Int :=
  Int.fdiv (now + off * 60000) dayMs * dayMs - off * 60000

/-! ### PayPal configuration constants (`lib/paypal.ts`) -/

/-- `export const MEETING_PRICE = '150.00'`. -/
def MEETING_PRICE : String := "150.00"

/-- `export const MEETING_CURRENCY = 'USD'`. -/
def MEETING_CURRENCY : String := "USD"

/-! ### Store primitives -/

/-- `Appointment.findById(appointmentId)`. -/
def findById (store : List Appointment) (appointmentId : Nat) : Option Appointment :=
  store.find? (fun a => a.id == appointmentId)

/-- Mongoose `document.save()` on an existing document: replace the
document with the same id. -/
def saveApp (store : List Appointment) (a : Appointment) : List Appointment :=
  store.map (fun b => if b.id == a.id then a else b)

/-! ### `GET /available` (src/routes/appointments.ts) -/

/-- One entry of the availability response's `slots` array. -/
structure SlotInfo where
  time : String
  available : Bool
deriving DecidableEq, Repr

/-- Response of the availability endpoint. -/
inductive AvailResp where
  | err (httpStatus : Nat) (code : String)
  | ok (slots : List SlotInfo) (date : String) (totalSlots availableCount : Nat)
deriving DecidableEq, Repr

/-- Zero-padded two-digit rendering of an hour or minute component. -/
def twoDigits (n : Nat) : String :=
  (if n < 10 then "0" else "") ++ toString n

/-- `HH:MM` rendering of a minutes-of-day value. -/
def minutesToHHMM (t : Nat) : String :=
  twoDigits (t / 60) ++ ":" ++ twoDigits (t % 60)

/-- Modelled from the spec: `Appointment.generateTimeSlots()` lives in the
`Appointment` model file, which is not among the provided sources. Spec
§4.1: an ordered sequence over 09:00–17:30 in 30-minute steps. -/
def generateTimeSlots : List String :=
  (List.range 18).map (fun i => minutesToHHMM (540 + 30 * i))

/-- The `GET /available` handler: validates the `date` query parameter,
rejects past dates, then marks a slot unavailable when any appointment
with status `confirmed` or `pending` occupies `(date, time)`. -/
def availableHandler (off now : Int) (dateParam : Option String)
    (store : List Appointment) : AvailResp :=
  match dateParam with
  | none => .err 400 "INVALID_DATE"
  | some date =>
    if !dateRegexTest date then .err 400 "INVALID_DATE_FORMAT"
    else
      let p := parseYMD date
      let requestedDate := utcMidnight p.1 p.2.1 p.2.2
      if requestedDate < todayLocal off now then .err 400 "PAST_DATE"
      else
        let bookedTimes := (store.filter (fun a =>
          a.date == requestedDate &&
            (a.status == Status.confirmed || a.status == Status.pending))).map
          (fun a => a.time)
        let availableSlots := generateTimeSlots.map
          (fun t => SlotInfo.mk t (!bookedTimes.contains t))
        .ok availableSlots date availableSlots.length
          ((availableSlots.filter (fun s => s.available)).length)

/-- Observer on availability responses: the `available` flag the response
reports for slot `t`, when the response is a success that lists `t`. -/
def reportedAvailable (r : AvailResp) (t : String) : Option Bool :=
  match r with
  | .ok slots _ _ _ =>
    (slots.find? (fun s => s.time == t)).map (fun s => s.available)
  | .err _ _ => none

/-! ### `createOrderRequestBody` (src/lib/paypal.ts) -/

/-- A PayPal money amount `{currencyCode, value}`. -/
structure Money where
  currencyCode : String
  value : String
deriving DecidableEq, Repr

/-- A PayPal order line item. -/
structure OrderItem where
  name : String
  description : String
  quantity : String
  unitAmount : Money
deriving DecidableEq, Repr

/-- A PayPal purchase unit. -/
structure PurchaseUnit where
  referenceId : String
  description : String
  customId : String
  amount : Money
  itemTotal : Money
  items : List OrderItem
deriving DecidableEq, Repr

/-- The order request sent to PayPal (the fields the source populates). -/
structure OrderRequestBody where
  purchaseUnits : List PurchaseUnit
  returnUrl : String
  cancelUrl : String
  brandName : String
deriving DecidableEq, Repr

/-- The `appointmentDetails` argument of `createOrderRequestBody`. -/
structure AppointmentDetails where
  date : String
  time : String
  userName : String
  userEmail : String
deriving Repr

/-- `createOrderRequestBody` from `lib/paypal.ts`. Its TypeScript
signature declares exactly these four parameters; the caller in the
payments router passes a fifth `meetingPrice` argument, which JavaScript
drops. Every amount in the body is the hard-coded
`MEETING_PRICE`/`MEETING_CURRENCY` pair. -/
def createOrderRequestBody (appointmentId : String)
    (appointmentDetails : AppointmentDetails)
    (returnUrl cancelUrl : String) : OrderRequestBody :=
  { purchaseUnits := [
      { referenceId := appointmentId,
        description :=
          "Meeting Booking - " ++ appointmentDetails.date ++ " at " ++
            appointmentDetails.time,
        customId := appointmentId,
        amount := { currencyCode := MEETING_CURRENCY, value := MEETING_PRICE },
        itemTotal := { currencyCode := MEETING_CURRENCY, value := MEETING_PRICE },
        items := [
          { name := "Meeting Booking",
            description :=
              "Meeting with " ++ appointmentDetails.userName ++ " on " ++
                appointmentDetails.date ++ " at " ++ appointmentDetails.time,
            quantity := "1",
            unitAmount := { currencyCode := MEETING_CURRENCY, value := MEETING_PRICE } }] }],
    returnUrl := returnUrl,
    cancelUrl := cancelUrl,
    brandName := "Auxin World" }

/-! ### `POST /create-order` (payments router) -/

/-- Body of a create-order request. -/
structure CreateReq where
  date : String
  time : String
  userEmail : String
  userName : String
  timezone : Option String
  duration : Option Nat
  price : Option String
  slots : Option (List String)
  endTime : Option String
deriving Repr

/-- A link object of a PayPal order response. -/
structure OrderLink where
  rel : String
  href : String
deriving DecidableEq, Repr

/-- The PayPal order returned by `ordersController.createOrder`. -/
structure CreatedOrder where
  id : String
  links : List OrderLink
deriving DecidableEq, Repr

/-- A thrown JavaScript error, as far as the catch blocks inspect it
(`error.code`, the Mongo duplicate-key code being 11000). -/
structure JsError where
  code : Option Nat
deriving DecidableEq, Repr

/-- Outcome of an awaited call that can throw. -/
inductive Attempt (α : Type) where
  | ok (value : α)
  | thrown (e : JsError)
deriving DecidableEq, Repr

/-- Environment of one create-order invocation: configuration state, the
id Mongo assigns to the new document, and the outcome of each awaited
side effect in order. -/
structure CreateEnv where
  paypalConfigured : Bool
  newId : Nat
  firstSave : Option JsError
  orderCreation : Attempt CreatedOrder
  secondSave : Option JsError
deriving Repr

/-- Response of the create-order endpoint. -/
inductive CreateResp where
  | err (httpStatus : Nat) (code : String) (conflictingSlot : Option String)
  | created (orderId : String) (approvalUrl : String) (appointmentId : Nat)
      (amount currency : String)
deriving DecidableEq, Repr

/-- `const meetingPrice = price ? String(price) : MEETING_PRICE` (the
empty string is falsy). -/
def meetingPriceOf (req : CreateReq) : String :=
  match req.price with
  | some p => if p == "" then MEETING_PRICE else p
  | none => MEETING_PRICE

/-- `slots && Array.isArray(slots) && slots.length > 0 ? slots : [time]`. -/
def slotsToCheckOf (req : CreateReq) : List String :=
  match req.slots with
  | some l => if 0 < l.length then l else [req.time]
  | none => [req.time]

/-- The slot-availability query predicate of create-order: the
appointment occupies `(day, slotTime)` and is `confirmed`, or is
`pending`/`pending` with `createdAt > fifteenMinutesAgo`. -/
def liveBlocks (startOfDay endOfDay fifteenMinutesAgo : Int) (slotTime : String)
    (a : Appointment) : Bool :=
  startOfDay ≤ a.date && a.date ≤ endOfDay && a.time == slotTime &&
    (a.status == Status.confirmed ||
      (a.status == Status.pending && a.paymentStatus == PayStatus.pending &&
        fifteenMinutesAgo < a.createdAt))

/-- `Appointment.findOne` of the slot-availability check. -/
def slotConflict (store : List Appointment)
    (startOfDay endOfDay fifteenMinutesAgo : Int) (slotTime : String) :
    Option Appointment :=
  store.find? (liveBlocks startOfDay endOfDay fifteenMinutesAgo slotTime)

/-- The `for (const slotTime of slotsToCheck)` loop: the first requested
slot with a live conflict, if any. -/
def firstConflictSlot (store : List Appointment)
    (startOfDay endOfDay fifteenMinutesAgo : Int) (slotsToCheck : List String) :
    Option String :=
  slotsToCheck.find? (fun s =>
    (slotConflict store startOfDay endOfDay fifteenMinutesAgo s).isSome)

/-- `Appointment.findOne` of the duplicate-date check: a confirmed
appointment of the same user on the same day. -/
def dupConfirmed (store : List Appointment) (userId : String)
    (startOfDay endOfDay : Int) : Option Appointment :=
  store.find? (fun a => a.userId == userId && startOfDay ≤ a.date &&
    a.date ≤ endOfDay && a.status == Status.confirmed)

/-- The catch block of create-order: a duplicate-key error (code 11000)
is remapped to the 409 `SLOT_UNAVAILABLE` response, anything else to a
500 `PAYPAL_ORDER_ERROR`. -/
def createCatch (e : JsError) : CreateResp :=
  if e.code == some 11000 then .err 409 "SLOT_UNAVAILABLE" none
  else .err 500 "PAYPAL_ORDER_ERROR" none

/-- The pending appointment document built by create-order. -/
def newPendingAppointment (env : CreateEnv) (now : Int) (userId : String)
    (req : CreateReq) (appointmentDate : Int) (meetingPrice : String)
    (slotsToCheck : List String) : Appointment :=
  { id := env.newId, userId := userId, userEmail := req.userEmail,
    userName := req.userName, date := appointmentDate, time := req.time,
    timezone := match req.timezone with
                | some t => if t == "" then "UTC" else t
                | none => "UTC",
    status := Status.pending, paymentStatus := PayStatus.pending,
    paymentInfo := { amount := meetingPrice, currency := MEETING_CURRENCY,
                     status := PayStatus.pending, paypalOrderId := none,
                     paypalPayerId := none, paypalTransactionId := none,
                     paidAt := none },
    duration := match req.duration with | some 0 => none | x => x,
    endTime := match req.endTime with | some t => if t == "" then none else some t | none => none,
    bookedSlots := slotsToCheck,
    googleMeetLink := none, googleCalendarEventId := none,
    categoryId := none, categoryName := none, formAnswers := none,
    createdAt := now }

/-- `order.links?.find(rel === 'payer-action')?.href ||
order.links?.find(rel === 'approve')?.href`. -/
def approvalUrlOf (order : CreatedOrder) : Option String :=
  match order.links.find? (fun l => l.rel == "payer-action") with
  | some l => some l.href
  | none =>
    match order.links.find? (fun l => l.rel == "approve") with
    | some l => some l.href
    | none => none

/-- The parsed local-midnight appointment date of a create-order request. -/
def appointmentDateOf (off : Int) (req : CreateReq) : Int :=
  localMidnight off (parseYMD req.date).1 (parseYMD req.date).2.1
    (parseYMD req.date).2.2

/-- The `POST /create-order` handler. -/
def createOrderHandler (env : CreateEnv) (off now : Int)
    (userId authedEmail : String) (req : CreateReq)
    (store : List Appointment) : CreateResp × List Appointment :=
  if !env.paypalConfigured then (.err 500 "PAYPAL_CONFIG_ERROR" none, store) else
  let meetingPrice := meetingPriceOf req
  let slotsToCheck := slotsToCheckOf req
  if req.date == "" || req.time == "" || req.userEmail == "" || req.userName == "" then
    (.err 400 "MISSING_FIELDS" none, store) else
  if !dateRegexTest req.date then (.err 400 "INVALID_DATE_FORMAT" none, store) else
  if !timeRegexTest req.time then (.err 400 "INVALID_TIME_FORMAT" none, store) else
  let hm := parseTimeHM req.time
  let timeInMinutes := hm.1 * 60 + hm.2
  if timeInMinutes < 540 || 1050 < timeInMinutes || hm.2 % 30 != 0 then
    (.err 400 "INVALID_TIME_SLOT" none, store) else
  let appointmentDate := appointmentDateOf off req
  if appointmentDate < todayLocal off now then (.err 400 "PAST_DATE" none, store) else
  if req.userEmail != authedEmail then (.err 400 "EMAIL_MISMATCH" none, store) else
  let fifteenMinutesAgo := now - 900000
  let startOfDay := appointmentDate
  let endOfDay := appointmentDate + (dayMs - 1)
  match firstConflictSlot store startOfDay endOfDay fifteenMinutesAgo slotsToCheck with
  | some conflictingSlot => (.err 409 "SLOT_UNAVAILABLE" (some conflictingSlot), store)
  | none =>
  if (dupConfirmed store userId startOfDay endOfDay).isSome then
    (.err 409 "DUPLICATE_DATE_BOOKING" none, store) else
  let apt := newPendingAppointment env now userId req appointmentDate meetingPrice slotsToCheck
  match env.firstSave with
  | some e => (createCatch e, store)
  | none =>
  let store1 := store ++ [apt]
  match env.orderCreation with
  | .thrown e => (createCatch e, store1)
  | .ok order =>
  let apt2 := { apt with paymentInfo := { apt.paymentInfo with
                  paypalOrderId := some order.id, amount := meetingPrice,
                  currency := MEETING_CURRENCY, status := PayStatus.pending } }
  match env.secondSave with
  | some e => (createCatch e, store1)
  | none =>
  let store2 := saveApp store1 apt2
  match approvalUrlOf order with
  | none => (.err 500 "PAYPAL_APPROVAL_URL_ERROR" none, store2)
  | some url => (.created order.id url env.newId MEETING_PRICE MEETING_CURRENCY, store2)

/-! ### `POST /capture-order` (payments router) -/

/-- The data of a Google Meet event created by `createGoogleMeetEvent`. -/
structure MeetData where
  googleMeetLink : String
  googleCalendarEventId : String
deriving DecidableEq, Repr

/-- A PayPal SDK error as far as the capture catch block inspects it:
`error.statusCode`, `error.result.details[0].issue` (with the
`error.body` JSON fallback folded in), and whether body or message
mention `ORDER_ALREADY_CAPTURED`. -/
structure PayPalError where
  statusCode : Option Nat
  resultIssue : Option String
  bodyMentionsAlreadyCaptured : Bool
  messageMentionsAlreadyCaptured : Bool
deriving DecidableEq, Repr

/-- The `isOrderAlreadyCaptured` sniff of the capture catch block. -/
def isOrderAlreadyCaptured (e : PayPalError) : Bool :=
  e.statusCode == some 422 &&
    (e.resultIssue == some "ORDER_ALREADY_CAPTURED" ||
      e.bodyMentionsAlreadyCaptured || e.messageMentionsAlreadyCaptured)

/-- A PayPal order as the capture path reads it: `status`,
`payer.payerId`, and `purchaseUnits[0].payments.captures[0].id`. -/
structure POrder where
  status : String
  payerId : Option String
  captureId : Option String
deriving DecidableEq, Repr

/-- Outcome of `ordersController.captureOrder`. -/
inductive CaptureAttempt where
  | ok (order : POrder)
  | thrown (e : PayPalError)
deriving DecidableEq, Repr

/-- Environment of one capture-order invocation: the capture outcome, the
result of `ordersController.getOrder` (`none` models a throw), and the
result of `createGoogleMeetEvent` (`none` models a throw). -/
structure CaptureEnv where
  attempt : CaptureAttempt
  orderFetch : Option POrder
  meetCreation : Option MeetData
deriving DecidableEq, Repr

/-- Body of a capture-order request. -/
structure CaptureReq where
  orderId : String
  appointmentId : Nat
  categoryId : Option String
  categoryName : Option String
  formAnswers : Option (List (String × String))
deriving DecidableEq, Repr

/-- Response of the capture-order endpoint. -/
inductive CaptureResp where
  | ok (message : String) (appointment : Snapshot)
  | err (httpStatus : Nat) (code : String) (rawStatus : Option String)
deriving DecidableEq, Repr

/-- `Appointment.findOne({_id, userId, 'paymentInfo.paypalOrderId'})`. -/
def findAppointment (store : List Appointment) (appointmentId : Nat)
    (userId orderId : String) : Option Appointment :=
  store.find? (fun a => a.id == appointmentId && a.userId == userId &&
    a.paymentInfo.paypalOrderId == some orderId)

/-- The field updates of `updateAppointmentFromOrder` in its COMPLETED
branch, before the Meet-link attempt: confirmed/completed status, capture
metadata (amount and currency overwritten with the constants), and the
optional category/form data from the request body. -/
def confirmedFromOrder (now : Int) (req : CaptureReq) (order : POrder)
    (apt : Appointment) : Appointment :=
  let a1 := { apt with
                status := Status.confirmed,
                paymentStatus := PayStatus.completed,
                paymentInfo := { apt.paymentInfo with
                                   paypalOrderId := some req.orderId,
                                   paypalPayerId := some (order.payerId.getD ""),
                                   paypalTransactionId := some (order.captureId.getD ""),
                                   amount := MEETING_PRICE,
                                   currency := MEETING_CURRENCY,
                                   status := PayStatus.completed,
                                   paidAt := some now } }
  let a2 := match req.categoryId with
            | some cid => if cid == "" then a1 else { a1 with categoryId := some cid }
            | none => a1
  let a3 := match req.categoryName with
            | some cn => if cn == "" then a2
                         else { a2 with categoryName := some cn.toUpper.trim }
            | none => a2
  match req.formAnswers with
  | some fa => { a3 with formAnswers := some fa }
  | none => a3

/-- The `if (!appointmentToUpdate.googleMeetLink)` block: best-effort
attempt the Google Meet link; a throw of `createGoogleMeetEvent`
(`env.meetCreation = none`) is caught and swallowed. -/
def withMeetAttempt (env : CaptureEnv) (a : Appointment) : Appointment :=
  if (a.googleMeetLink.getD "") == "" then
    match env.meetCreation with
    | some md => { a with
                     googleMeetLink := some md.googleMeetLink,
                     googleCalendarEventId := some md.googleCalendarEventId }
    | none => a
  else a

/-- The appointment document as saved by the COMPLETED branch of
`updateAppointmentFromOrder`. -/
def captureUpdated (env : CaptureEnv) (now : Int) (req : CaptureReq)
    (order : POrder) (apt : Appointment) : Appointment :=
  withMeetAttempt env (confirmedFromOrder now req order apt)

/-- `updateAppointmentFromOrder(order, appointmentToUpdate)`: on a
COMPLETED order, update the document, best-effort attempt the Google
Meet link, save, and report `true`; otherwise report `false` without
touching the store. -/
def updateAppointmentFromOrder (env : CaptureEnv) (now : Int) (req : CaptureReq)
    (order : POrder) (apt : Appointment) (store : List Appointment) :
    Bool × List Appointment :=
  if order.status == "COMPLETED" then
    (true, saveApp store (captureUpdated env now req order apt))
  else (false, store)

/-- The `POST /capture-order` handler. -/
def captureOrderHandler (env : CaptureEnv) (now : Int) (userId : String)
    (req : CaptureReq) (store : List Appointment) :
    CaptureResp × List Appointment :=
  if req.orderId == "" then (.err 400 "MISSING_FIELDS" none, store) else
  match findAppointment store req.appointmentId userId req.orderId with
  | none => (.err 404 "APPOINTMENT_NOT_FOUND" none, store)
  | some apt =>
  if apt.paymentStatus == PayStatus.completed then
    let refreshedAppointment := (findById store req.appointmentId).getD apt
    (.ok "Payment already completed" (snapOf refreshedAppointment), store)
  else
  match env.attempt with
  | .ok capturedOrder =>
    if capturedOrder.status == "COMPLETED" then
      let r := updateAppointmentFromOrder env now req capturedOrder apt store
      let updatedAppointment := (findById r.2 req.appointmentId).getD apt
      (.ok "Payment completed successfully" (snapOf updatedAppointment), r.2)
    else
      let aptF := { apt with
                      paymentStatus := PayStatus.failed,
                      paymentInfo := { apt.paymentInfo with
                                         status := PayStatus.failed } }
      (.err 400 "PAYMENT_NOT_COMPLETED" (some capturedOrder.status),
        saveApp store aptF)
  | .thrown e =>
    if isOrderAlreadyCaptured e then
      match env.orderFetch with
      | some orderDetails =>
        let appointmentToUpdate := (findById store req.appointmentId).getD apt
        if appointmentToUpdate.paymentStatus == PayStatus.completed then
          let refreshedForResponse :=
            (findById store req.appointmentId).getD appointmentToUpdate
          (.ok "Payment already completed" (snapOf refreshedForResponse), store)
        else
          let r := updateAppointmentFromOrder env now req orderDetails
            appointmentToUpdate store
          if r.1 then
            let refreshedAppointment :=
              (findById r.2 req.appointmentId).getD appointmentToUpdate
            (.ok "Payment was already completed" (snapOf refreshedAppointment), r.2)
          else
            (.err 400 "PAYMENT_NOT_COMPLETED" (some orderDetails.status), store)
      | none =>
        match findById store req.appointmentId with
        | some fallbackAppointment =>
          if fallbackAppointment.paymentStatus == PayStatus.completed then
            (.ok "Payment already completed" (snapOf fallbackAppointment), store)
          else (.err (e.statusCode.getD 500) "CAPTURE_ERROR" none, store)
        | none => (.err (e.statusCode.getD 500) "CAPTURE_ERROR" none, store)
    else (.err (e.statusCode.getD 500) "CAPTURE_ERROR" none, store)

/-! ### `PUT /:appointmentId/cancel` (src/routes/appointments.ts) -/

/-- `hours * 60 + minutes` of an appointment's `HH:MM` time field. -/
def timeToMinutes (s : String) : Nat :=
  (parseTimeHM s).1 * 60 + (parseTimeHM s).2

/-- `new Date(dateStr + 'T' + time + ':00')` where `dateStr` is the UTC
calendar day of the stored date (`toISOString().split('T')[0]`) and the
dateless-offset ISO form parses in local time. -/
def appointmentStartMs (off : Int) (apt : Appointment) : Int :=
  Int.fdiv apt.date dayMs * dayMs + (timeToMinutes apt.time : Int) * 60000 -
    off * 60000

/-- Modelled from the spec: the `Appointment` model (with its
`canBeCancelled` method) is not among the provided sources. Spec §4.3:
post-confirmation cancellation is "permitted only while
now < appointmentStart − 1h". -/
def canBeCancelled (off now : Int) (apt : Appointment) : Bool :=
  now < appointmentStartMs off apt - 3600000

/-- Response of the cancel endpoint. -/
inductive CancelResp where
  | err (httpStatus : Nat) (code : String) (hoursUntilAppointment : Option Int)
  | ok (id : Nat) (date : Int) (time : String)
deriving DecidableEq, Repr

/-- The `PUT /:appointmentId/cancel` handler. The multi-method deletion
fallback chain of the source reduces to one removal here: the first
`deleteOne({_id, userId})` deletes the found document, so the later
fallbacks never run. -/
def cancelHandler (off now : Int) (userId : String) (appointmentId : Nat)
    (store : List Appointment) : CancelResp × List Appointment :=
  match store.find? (fun a => a.id == appointmentId && a.userId == userId) with
  | none => (.err 404 "APPOINTMENT_NOT_FOUND" none, store)
  | some apt =>
  if apt.status == Status.cancelled then (.err 400 "ALREADY_CANCELLED" none, store)
  else if !canBeCancelled off now apt then
    let timeDiff := appointmentStartMs off apt - now
    (.err 400 "CANCELLATION_TOO_LATE" (some (Int.fdiv timeDiff 3600000)), store)
  else
    (.ok apt.id apt.date apt.time,
      store.filter (fun a => !(a.id == appointmentId && a.userId == userId)))

/-! ### `POST /cleanup-pending` (payments router) -/

/-- The `deleteMany` filter of the cleanup endpoint: status `pending`,
paymentStatus `pending`, `createdAt` older than 15 minutes (900000 ms). -/
def isExpiredPending (now : Int) (a : Appointment) : Bool :=
  a.status == Status.pending && a.paymentStatus == PayStatus.pending &&
    a.createdAt < now - 900000

/-- Response of the cleanup endpoint. -/
structure CleanupResp where
  success : Bool
  deletedCount : Nat
deriving DecidableEq, Repr

/-- The `POST /cleanup-pending` handler: delete every expired pending
hold, report the number of deleted rows. -/
def cleanupHandler (now : Int) (store : List Appointment) :
    CleanupResp × List Appointment :=
  ({ success := true,
     deletedCount := (store.filter (isExpiredPending now)).length },
   store.filter (fun a => !isExpiredPending now a))

/-! ### Store consistency and helper lemmas -/

/-- A well-formed store: document ids are pairwise distinct. -/
def wfStore (store : List Appointment) : Prop :=
  (store.map Appointment.id).Nodup

theorem find?_strengthen {α : Type} (p q : α → Bool) (l : List α) (x : α)
    (hfind : l.find? p = some x) (hx : q x = true)
    (himp : ∀ a, q a = true → p a = true) :
    l.find? q = some x := by
  induction l with
  | nil => simp at hfind
  | cons a t ih =>
    by_cases hpa : p a = true
    · rw [List.find?_cons_of_pos t hpa] at hfind
      obtain rfl : a = x := (Option.some.injEq a x).mp hfind
      rw [List.find?_cons_of_pos t hx]
    · rw [List.find?_cons_of_neg t hpa] at hfind
      have hqa : ¬ q a = true := fun hq => hpa (himp a hq)
      rw [List.find?_cons_of_neg t hqa]
      exact ih hfind

theorem id_eq_of_findById (store : List Appointment) (aid : Nat)
    (apt : Appointment) (h : findById store aid = some apt) : apt.id = aid := by
  have := List.find?_some h
  simpa using this

theorem findById_of_findAppointment (store : List Appointment) (aid : Nat)
    (uid oid : String) (apt : Appointment) (hwf : wfStore store)
    (hfind : findAppointment store aid uid oid = some apt) :
    findById store aid = some apt := by
  induction store with
  | nil => simp [findAppointment] at hfind
  | cons b t ih =>
    unfold findAppointment at hfind
    unfold findById
    by_cases hb : (b.id == aid && b.userId == uid &&
        b.paymentInfo.paypalOrderId == some oid) = true
    · rw [List.find?_cons_of_pos t hb] at hfind
      obtain rfl : b = apt := (Option.some.injEq b apt).mp hfind
      have : (b.id == aid) = true := by
        simp only [Bool.and_eq_true] at hb
        exact hb.1.1
      rw [List.find?_cons_of_pos t this]
    · rw [List.find?_cons_of_neg t hb] at hfind
      have hmem : apt ∈ t := List.mem_of_find?_eq_some hfind
      have haptid : apt.id = aid := by
        have := List.find?_some hfind
        simp only [Bool.and_eq_true, beq_iff_eq] at this
        exact this.1.1
      have hwf' : wfStore t := (List.nodup_cons.mp hwf).2
      have hnotin : b.id ∉ t.map Appointment.id := (List.nodup_cons.mp hwf).1
      have hbid : ¬ (b.id == aid) = true := by
        intro hbeq
        apply hnotin
        have : b.id = aid := by simpa using hbeq
        rw [this, ← haptid]
        exact List.mem_map_of_mem Appointment.id hmem
      rw [List.find?_cons_of_neg t hbid]
      exact ih hwf' hfind

theorem findById_saveApp (store : List Appointment) (aid : Nat)
    (apt apt' : Appointment) (hfind : findById store aid = some apt)
    (hid : apt'.id = apt.id) : findById (saveApp store apt') aid = some apt' := by
  have haptid : apt.id = aid := id_eq_of_findById store aid apt hfind
  have hapt'id : (apt'.id == aid) = true := by simp [hid, haptid]
  induction store with
  | nil => simp [findById] at hfind
  | cons b t ih =>
    unfold findById at hfind ⊢
    unfold saveApp
    by_cases hb : (b.id == aid) = true
    · have hb' : (b.id == apt'.id) = true := by
        simp only [beq_iff_eq] at hb ⊢
        rw [hb, hid, haptid]
      simp only [List.map_cons, hb', if_true]
      simp only [List.find?, hapt'id]
    · have hbf : (b.id == aid) = false := by simpa using hb
      have hb' : (b.id == apt'.id) = false := by
        simp only [beq_eq_false_iff_ne, ne_eq] at hbf ⊢
        rw [hid, haptid]
        exact hbf
      simp only [List.find?, hbf] at hfind
      simp only [List.map_cons, hb', Bool.false_eq_true, if_false]
      simp only [List.find?, hbf]
      exact ih hfind

theorem findAppointment_saveApp (store : List Appointment) (aid : Nat)
    (uid oid : String) (apt apt' : Appointment)
    (hfind : findById store aid = some apt) (hid : apt'.id = apt.id)
    (huid : apt'.userId = uid)
    (hord : apt'.paymentInfo.paypalOrderId = some oid) :
    findAppointment (saveApp store apt') aid uid oid = some apt' := by
  have h1 := findById_saveApp store aid apt apt' hfind hid
  have haptid : apt.id = aid := id_eq_of_findById store aid apt hfind
  unfold findById at h1
  unfold findAppointment
  refine find?_strengthen (fun a => a.id == aid)
    (fun a => a.id == aid && a.userId == uid &&
      a.paymentInfo.paypalOrderId == some oid)
    (saveApp store apt') apt' h1 ?_ ?_
  · simp only [Bool.and_eq_true, beq_iff_eq]
    exact ⟨⟨by rw [hid, haptid], huid⟩, hord⟩
  · intro a ha
    simp only [Bool.and_eq_true] at ha
    exact ha.1.1

theorem mem_saveApp_of_id (store : List Appointment) (a b : Appointment)
    (hb : b ∈ saveApp store a) (hid : b.id = a.id) : b = a := by
  unfold saveApp at hb
  obtain ⟨c, _, hc⟩ := List.mem_map.mp hb
  by_cases h : (c.id == a.id) = true
  · rw [if_pos h] at hc
    exact hc.symm
  · rw [if_neg h] at hc
    subst hc
    exact absurd (by simpa using hid) h

theorem confirmedFromOrder_fields (now : Int) (req : CaptureReq)
    (order : POrder) (apt : Appointment) :
    (confirmedFromOrder now req order apt).status = Status.confirmed ∧
    (confirmedFromOrder now req order apt).paymentStatus = PayStatus.completed ∧
    (confirmedFromOrder now req order apt).id = apt.id ∧
    (confirmedFromOrder now req order apt).userId = apt.userId ∧
    (confirmedFromOrder now req order apt).paymentInfo.paypalOrderId = some req.orderId ∧
    (confirmedFromOrder now req order apt).paymentInfo.amount = MEETING_PRICE ∧
    (confirmedFromOrder now req order apt).paymentInfo.currency = MEETING_CURRENCY ∧
    (confirmedFromOrder now req order apt).googleMeetLink = apt.googleMeetLink := by
  unfold confirmedFromOrder
  cases req.categoryId <;> cases req.categoryName <;> cases req.formAnswers <;>
    simp <;> split_ifs <;> simp

theorem withMeetAttempt_fields (env : CaptureEnv) (a : Appointment) :
    (withMeetAttempt env a).status = a.status ∧
    (withMeetAttempt env a).paymentStatus = a.paymentStatus ∧
    (withMeetAttempt env a).id = a.id ∧
    (withMeetAttempt env a).userId = a.userId ∧
    (withMeetAttempt env a).paymentInfo = a.paymentInfo := by
  unfold withMeetAttempt
  split_ifs <;> cases env.meetCreation <;> simp

theorem captureUpdated_fields (env : CaptureEnv) (now : Int) (req : CaptureReq)
    (order : POrder) (apt : Appointment) :
    (captureUpdated env now req order apt).status = Status.confirmed ∧
    (captureUpdated env now req order apt).paymentStatus = PayStatus.completed ∧
    (captureUpdated env now req order apt).id = apt.id ∧
    (captureUpdated env now req order apt).userId = apt.userId ∧
    (captureUpdated env now req order apt).paymentInfo.paypalOrderId = some req.orderId ∧
    (captureUpdated env now req order apt).paymentInfo.amount = MEETING_PRICE ∧
    (captureUpdated env now req order apt).paymentInfo.currency = MEETING_CURRENCY := by
  obtain ⟨h1, h2, h3, h4, h5⟩ :=
    withMeetAttempt_fields env (confirmedFromOrder now req order apt)
  obtain ⟨c1, c2, c3, c4, c5, c6, c7, _⟩ := confirmedFromOrder_fields now req order apt
  unfold captureUpdated
  rw [h1, h2, h3, h4, h5]
  exact ⟨c1, c2, c3, c4, c5, c6, c7⟩

theorem captureUpdated_link_none (env : CaptureEnv) (now : Int) (req : CaptureReq)
    (order : POrder) (apt : Appointment) (hnolink : apt.googleMeetLink = none)
    (hmeet : env.meetCreation = none) :
    (captureUpdated env now req order apt).googleMeetLink = none := by
  obtain ⟨_, _, _, _, _, _, _, c8⟩ := confirmedFromOrder_fields now req order apt
  unfold captureUpdated withMeetAttempt
  rw [hmeet]
  split_ifs <;> simp [c8, hnolink]

theorem captureUpdated_meet_only (envA envB : CaptureEnv) (now : Int)
    (req : CaptureReq) (order : POrder) (apt : Appointment)
    (hmeet : envA.meetCreation = envB.meetCreation) :
    captureUpdated envA now req order apt = captureUpdated envB now req order apt := by
  unfold captureUpdated withMeetAttempt
  rw [hmeet]

theorem bookedTimes_contains_iff (store : List Appointment) (rd : Int)
    (t : String) :
    ((store.filter (fun a => a.date == rd &&
        (a.status == Status.confirmed || a.status == Status.pending))).map
      (fun a => a.time)).contains t = true ↔
    ∃ a ∈ store, a.date = rd ∧ a.time = t ∧
      (a.status = Status.confirmed ∨ a.status = Status.pending) := by
  rw [List.contains_eq_any_beq]
  simp only [List.any_eq_true, List.mem_map, List.mem_filter,
    Bool.and_eq_true, Bool.or_eq_true, beq_iff_eq]
  constructor
  · rintro ⟨x, ⟨a, ⟨ha, hd, hst⟩, htm⟩, hbeq⟩
    exact ⟨a, ha, hd, htm.trans hbeq.symm, hst⟩
  · rintro ⟨a, ha, hd, htm, hst⟩
    exact ⟨t, ⟨a, ⟨ha, hd, hst⟩, htm⟩, rfl⟩

theorem utc_lt_today_of_local_lt (off now : Int) (y m d : Nat)
    (hoff : off < 1440)
    (h : localMidnight off y m d < todayLocal off now) :
    utcMidnight y m d < todayLocal off now := by
  have hD : dayMs = 86400000 := rfl
  unfold localMidnight todayLocal at h
  unfold utcMidnight todayLocal
  rw [hD] at h ⊢
  omega

/-! ### Concrete fixtures for witnesses and counterexamples -/

/-- A fresh pending `paymentInfo` value, as create-order builds it. -/
def pendingInfo (ord : Option String) : PaymentInfo :=
  { amount := "150.00", currency := "USD", status := PayStatus.pending,
    paypalOrderId := ord, paypalPayerId := none, paypalTransactionId := none,
    paidAt := none }

/-- Base sample appointment used by the concrete witnesses below:
a pending/pending hold for slot 09:00 on 1970-01-31 (epoch day 30),
created at epoch 0, PayPal order `ORD1`. -/
def sampleApt : Appointment :=
  { id := 1, userId := "u1", userEmail := "e@x.y", userName := "N",
    date := 2592000000, time := "09:00", timezone := "UTC",
    status := Status.pending, paymentStatus := PayStatus.pending,
    paymentInfo := pendingInfo (some "ORD1"),
    duration := none, endTime := none, bookedSlots := ["09:00"],
    googleMeetLink := none, googleCalendarEventId := none,
    categoryId := none, categoryName := none, formAnswers := none,
    createdAt := 0 }

/-- A confirmed, paid variant of `sampleApt` (slot 10:00 of the same day,
so its start is epoch day 30 + 10 h). -/
def confirmedApt : Appointment :=
  { sampleApt with
      time := "10:00",
      status := Status.confirmed,
      paymentStatus := PayStatus.completed,
      paymentInfo := { pendingInfo (some "ORD1") with
                         status := PayStatus.completed } }

/-- A create-order environment in which configuration is present and
every awaited side effect succeeds. -/
def okCreateEnv : CreateEnv :=
  { paypalConfigured := true, newId := 9, firstSave := none,
    orderCreation := Attempt.ok
      { id := "ORD9", links := [{ rel := "payer-action", href := "https://pp/a" }] },
    secondSave := none }

/-- A valid create-order request for 09:00 on 1970-01-02. -/
def wPastReq : CreateReq :=
  { date := "1970-01-02", time := "09:00", userEmail := "e@x.y",
    userName := "N", timezone := none, duration := none, price := none,
    slots := none, endTime := none }

/-- A capture-order request for `ORD1` / appointment 1. -/
def wCapReq : CaptureReq :=
  { orderId := "ORD1", appointmentId := 1, categoryId := none,
    categoryName := none, formAnswers := none }

/-- The PayPal `ORDER_ALREADY_CAPTURED` rejection (HTTP 422). -/
def acErr : PayPalError :=
  { statusCode := some 422, resultIssue := some "ORDER_ALREADY_CAPTURED",
    bodyMentionsAlreadyCaptured := false,
    messageMentionsAlreadyCaptured := false }

/-- A COMPLETED PayPal order with payer and transaction ids. -/
def okOrder : POrder :=
  { status := "COMPLETED", payerId := some "PAYER", captureId := some "TX" }

/-- A capture environment whose capture call succeeds with COMPLETED and
whose Meet-link call succeeds. -/
def okCapEnv : CaptureEnv :=
  { attempt := CaptureAttempt.ok okOrder,
    orderFetch := none,
    meetCreation := some
      { googleMeetLink := "https://meet/x", googleCalendarEventId := "EV" } }

/-- A capture environment without a working Meet-link provisioner. -/
def okCapEnvNoMeet : CaptureEnv := { okCapEnv with meetCreation := none }

/-- Capture environment: capture throws `ORDER_ALREADY_CAPTURED` but the
follow-up order fetch reports the order COMPLETED. -/
def acCompletedEnv : CaptureEnv :=
  { attempt := CaptureAttempt.thrown acErr,
    orderFetch := some okOrder,
    meetCreation := okCapEnv.meetCreation }

/-- Capture environment: capture throws `ORDER_ALREADY_CAPTURED` and the
follow-up order fetch reports a non-COMPLETED status. -/
def acPendEnv : CaptureEnv :=
  { attempt := CaptureAttempt.thrown acErr,
    orderFetch := some { status := "PENDING", payerId := none, captureId := none },
    meetCreation := none }

/-- Capture environment: the capture call returns a DECLINED order. -/
def declinedEnv : CaptureEnv :=
  { attempt := CaptureAttempt.ok
      { status := "DECLINED", payerId := none, captureId := none },
    orderFetch := none, meetCreation := none }

/-- A young pending/pending hold on slot 09:00 of epoch day 30, created
at that day's midnight (so it is under 15 minutes old shortly after). -/
def youngApt : Appointment := { sampleApt with createdAt := 2592000000 }

/-- A create-order request for slot 09:00 of 1970-01-31 by user `u2`. -/
def wConflictReq : CreateReq :=
  { date := "1970-01-31", time := "09:00", userEmail := "e@x.y",
    userName := "N", timezone := none, duration := none, price := none,
    slots := none, endTime := none }

/-- A pending hold whose stored price differs from the fixed meeting
price (as a client-supplied `price` would produce). -/
def priceyApt : Appointment :=
  { sampleApt with
      paymentInfo := { pendingInfo (some "ORD1") with
                         amount := "999.99", currency := "EUR" } }

/-! ### Claims -/

/-- Claim C6: the cleanup sweep deletes exactly the reservations with status
pending, paymentStatus pending, and createdAt more than 15 minutes before
the current time; every confirmed row, every paymentStatus-failed row, and
every pending row younger than 15 minutes is left unchanged, and the
endpoint returns the count of deleted rows. -/
theorem cleanup_exactly_expired (now : Int) (store : List Appointment) :
    (∀ a, a ∈ (cleanupHandler now store).2 ↔
      a ∈ store ∧ ¬(a.status = Status.pending ∧
        a.paymentStatus = PayStatus.pending ∧ a.createdAt < now - 900000)) ∧
    (cleanupHandler now store).1.deletedCount +
      (cleanupHandler now store).2.length = store.length ∧
    (∀ a ∈ store,
      (a.status = Status.confirmed ∨ a.paymentStatus = PayStatus.failed ∨
        now - 900000 ≤ a.createdAt) → a ∈ (cleanupHandler now store).2) := by
  have hmem : ∀ a, a ∈ (cleanupHandler now store).2 ↔
      a ∈ store ∧ ¬(a.status = Status.pending ∧
        a.paymentStatus = PayStatus.pending ∧ a.createdAt < now - 900000) := by
    intro a
    simp [cleanupHandler, List.mem_filter, isExpiredPending]
    tauto
  refine ⟨hmem, ?_, ?_⟩
  · simp only [cleanupHandler]
    exact (List.length_eq_length_filter_add (isExpiredPending now)).symm
  · intro a ha hcond
    refine (hmem a).mpr ⟨ha, fun hc => ?_⟩
    rcases hcond with h | h | h
    · rw [h] at hc
      exact absurd hc.1 (by simp)
    · rw [h] at hc
      exact absurd hc.2.1 (by simp)
    · omega

/-- Witness for claim C6 at a concrete store: a confirmed reservation is
untouched by the sweep. -/
theorem cleanup_exactly_expired_witness :
    { sampleApt with id := 2, status := Status.confirmed } ∈
      (cleanupHandler 1000000
        [{ sampleApt with id := 2, status := Status.confirmed }]).2 :=
  (cleanup_exactly_expired 1000000
      [{ sampleApt with id := 2, status := Status.confirmed }]).2.2
    { sampleApt with id := 2, status := Status.confirmed } (by simp) (Or.inl rfl)

/-- Claim C7: cancelling a confirmed reservation is permitted only while the
current time is more than 1 hour before the appointment start; any later
attempt fails with the `CANCELLATION_TOO_LATE` error carrying the
remaining hours until the appointment, and the reservation is not
deleted. (`canBeCancelled` is modelled from the spec, the `Appointment`
model file being absent from the sources.) -/
theorem cancel_cutoff (off now : Int) (uid : String) (aid : Nat)
    (store : List Appointment) (apt : Appointment)
    (hfind : store.find? (fun a => a.id == aid && a.userId == uid) = some apt)
    (hconf : apt.status = Status.confirmed) :
    (appointmentStartMs off apt - 3600000 ≤ now →
      cancelHandler off now uid aid store =
        (CancelResp.err 400 "CANCELLATION_TOO_LATE"
          (some (Int.fdiv (appointmentStartMs off apt - now) 3600000)), store)) ∧
    (now < appointmentStartMs off apt - 3600000 →
      (cancelHandler off now uid aid store).1 =
        CancelResp.ok apt.id apt.date apt.time ∧
      ∀ b ∈ (cancelHandler off now uid aid store).2,
        ¬(b.id = aid ∧ b.userId = uid)) := by
  have hnc : (apt.status == Status.cancelled) = false := by simp [hconf]
  constructor
  · intro hlate
    have hcb : canBeCancelled off now apt = false := by
      simp only [canBeCancelled, decide_eq_false_iff_not, not_lt]
      omega
    simp [cancelHandler, hfind, hnc, hcb]
  · intro hearly
    have hcb : canBeCancelled off now apt = true := by
      simp only [canBeCancelled, decide_eq_true_eq]
      omega
    constructor
    · simp [cancelHandler, hfind, hnc, hcb]
    · intro b hb
      simp [cancelHandler, hfind, hnc, hcb, List.mem_filter] at hb
      tauto

/-- Witness for claim C7: a confirmed appointment at 10:00 on epoch day 30;
one minute before start the handler refuses with the remaining-hours hint
(0 hours) and leaves the store unchanged. -/
theorem cancel_cutoff_witness :
    [confirmedApt].find? (fun a => a.id == 1 && a.userId == "u1") =
      some confirmedApt ∧
    confirmedApt.status = Status.confirmed ∧
    cancelHandler 0 (2592000000 + 35940000) "u1" 1 [confirmedApt] =
      (CancelResp.err 400 "CANCELLATION_TOO_LATE" (some 0), [confirmedApt]) := by
  refine ⟨by decide, by decide, ?_⟩
  have h := (cancel_cutoff 0 (2592000000 + 35940000) "u1" 1 [confirmedApt]
      confirmedApt (by decide) (by decide)).1 (by decide)
  rw [h]
  decide

/-- Claim C8: for every date strictly before today (compared at local
midnight), both the availability query and the booking/create-order
operation reject the request with a 400 `PAST_DATE` error, and no
reservation is created (the create-order store is returned unchanged).
The timezone offset is bounded by a day, as every real zone is. -/
theorem past_date_rejected (env : CreateEnv) (off now : Int)
    (uid em : String) (req : CreateReq) (store : List Appointment)
    (hoff : off < 1440)
    (hcfg : env.paypalConfigured = true)
    (hfields : req.date ≠ "" ∧ req.time ≠ "" ∧ req.userEmail ≠ "" ∧
      req.userName ≠ "")
    (hdr : dateRegexTest req.date = true)
    (htr : timeRegexTest req.time = true)
    (hbh : 540 ≤ (parseTimeHM req.time).1 * 60 + (parseTimeHM req.time).2 ∧
      (parseTimeHM req.time).1 * 60 + (parseTimeHM req.time).2 ≤ 1050 ∧
      (parseTimeHM req.time).2 % 30 = 0)
    (hpast : appointmentDateOf off req < todayLocal off now) :
    createOrderHandler env off now uid em req store =
      (CreateResp.err 400 "PAST_DATE" none, store) ∧
    availableHandler off now (some req.date) store =
      AvailResp.err 400 "PAST_DATE" := by
  obtain ⟨hf1, hf2, hf3, hf4⟩ := hfields
  obtain ⟨hb1, hb2, hb3⟩ := hbh
  constructor
  · simp only [createOrderHandler, hcfg, Bool.not_true, Bool.false_eq_true,
      if_false]
    have e1 : (req.date == "") = false := by simp [hf1]
    have e2 : (req.time == "") = false := by simp [hf2]
    have e3 : (req.userEmail == "") = false := by simp [hf3]
    have e4 : (req.userName == "") = false := by simp [hf4]
    simp only [e1, e2, e3, e4, Bool.or_self, Bool.or_false, Bool.false_eq_true,
      if_false, hdr, htr, Bool.not_true]
    have e5 : (decide ((parseTimeHM req.time).1 * 60 + (parseTimeHM req.time).2 < 540) ||
        decide (1050 < (parseTimeHM req.time).1 * 60 + (parseTimeHM req.time).2) ||
        ((parseTimeHM req.time).2 % 30 != 0)) = false := by
      simp only [Bool.or_eq_false_iff, decide_eq_false_iff_not, not_lt,
        bne_eq_false_iff_eq]
      exact ⟨⟨hb1, hb2⟩, hb3⟩
    simp only [e5, Bool.false_eq_true, if_false]
    rw [if_pos hpast]
  · have hutc : utcMidnight (parseYMD req.date).1 (parseYMD req.date).2.1
        (parseYMD req.date).2.2 < todayLocal off now := by
      apply utc_lt_today_of_local_lt off now _ _ _ hoff
      unfold appointmentDateOf at hpast
      exact hpast
    simp only [availableHandler, hdr, Bool.not_true, Bool.false_eq_true,
      if_false]
    rw [if_pos hutc]

/-- Witness for claim C8: booking 1970-01-02 two days after it has passed
fails with `PAST_DATE` on both endpoints. -/
theorem past_date_rejected_witness :
    appointmentDateOf 0 wPastReq < todayLocal 0 259200005 ∧
    createOrderHandler okCreateEnv 0 259200005 "u1" "e@x.y" wPastReq [] =
      (CreateResp.err 400 "PAST_DATE" none, []) ∧
    availableHandler 0 259200005 (some wPastReq.date) [] =
      AvailResp.err 400 "PAST_DATE" := by
  have h := past_date_rejected okCreateEnv 0 259200005 "u1" "e@x.y" wPastReq []
    (by decide) (by decide) (by decide) (by decide) (by decide) (by decide)
    (by decide)
  exact ⟨by decide, h.1, h.2⟩

/-- Claim C1: capturePayment is idempotent on re-entry. If the reservation's
paymentStatus is already completed, the handler returns the current
confirmed state and performs no store write (the store is returned
unchanged, whatever the environment). If instead a first invocation
completes the capture, any second invocation with the same orderId
returns exactly the first invocation's confirmed state and leaves the
store of the first invocation unchanged. -/
theorem capture_idempotent_reentry (env env2 : CaptureEnv) (now now2 : Int)
    (uid : String) (req : CaptureReq) (store : List Appointment)
    (apt : Appointment) (hwf : wfStore store) (hoid : req.orderId ≠ "")
    (hfind : findAppointment store req.appointmentId uid req.orderId = some apt) :
    (apt.paymentStatus = PayStatus.completed →
      captureOrderHandler env now uid req store =
        (CaptureResp.ok "Payment already completed" (snapOf apt), store)) ∧
    (apt.paymentStatus ≠ PayStatus.completed →
      ∀ ord, env.attempt = CaptureAttempt.ok ord → ord.status = "COMPLETED" →
        captureOrderHandler env now uid req store =
          (CaptureResp.ok "Payment completed successfully"
             (snapOf (captureUpdated env now req ord apt)),
           saveApp store (captureUpdated env now req ord apt)) ∧
        (captureUpdated env now req ord apt).paymentStatus = PayStatus.completed ∧
        captureOrderHandler env2 now2 uid req
            (saveApp store (captureUpdated env now req ord apt)) =
          (CaptureResp.ok "Payment already completed"
             (snapOf (captureUpdated env now req ord apt)),
           saveApp store (captureUpdated env now req ord apt))) := by
  have hbyid : findById store req.appointmentId = some apt :=
    findById_of_findAppointment store req.appointmentId uid req.orderId apt
      hwf hfind
  have hoidb : (req.orderId == "") = false := by simp [hoid]
  constructor
  · intro hdone
    have hps : (apt.paymentStatus == PayStatus.completed) = true := by
      simp [hdone]
    simp [captureOrderHandler, hoidb, hfind, hps, hbyid]
  · intro hpend ord hatt hst
    have hps : (apt.paymentStatus == PayStatus.completed) = false := by
      simp [hpend]
    have hstb : (ord.status == "COMPLETED") = true := by simp [hst]
    obtain ⟨u1, u2, u3, u4, u5, u6, u7⟩ := captureUpdated_fields env now req ord apt
    have hfind' := hfind
    unfold findAppointment at hfind'
    have hpred := List.find?_some hfind'
    simp only [Bool.and_eq_true, beq_iff_eq] at hpred
    have huid : apt.userId = uid := hpred.1.2
    have hsave : findById (saveApp store (captureUpdated env now req ord apt))
        req.appointmentId = some (captureUpdated env now req ord apt) :=
      findById_saveApp store req.appointmentId apt _ hbyid (by rw [u3])
    refine ⟨?_, u2, ?_⟩
    · simp [captureOrderHandler, hoidb, hfind, hps, hatt,
        updateAppointmentFromOrder, hstb, hsave]
    · have hfind2 : findAppointment
          (saveApp store (captureUpdated env now req ord apt))
          req.appointmentId uid req.orderId =
          some (captureUpdated env now req ord apt) :=
        findAppointment_saveApp store req.appointmentId uid req.orderId apt _
          hbyid (by rw [u3]) (by rw [u4, huid]) u5
      have hps2 : ((captureUpdated env now req ord apt).paymentStatus ==
          PayStatus.completed) = true := by simp [u2]
      simp [captureOrderHandler, hoidb, hfind2, hps2, hsave]

/-- Witness for claim C1: a completed reservation; re-invoking capture
returns the stored confirmed state and does not touch the store. -/
theorem capture_idempotent_reentry_witness :
    wfStore [confirmedApt] ∧ confirmedApt.paymentStatus = PayStatus.completed ∧
    captureOrderHandler okCapEnv 5000 "u1" wCapReq [confirmedApt] =
      (CaptureResp.ok "Payment already completed" (snapOf confirmedApt),
        [confirmedApt]) :=
  ⟨by unfold wfStore; decide, by decide,
    (capture_idempotent_reentry okCapEnv okCapEnv 5000 6000 "u1" wCapReq
        [confirmedApt] confirmedApt (by unfold wfStore; decide) (by decide)
        (by decide)).1 (by decide)⟩

/-- Claim C2: when the provider rejects a capture with its "already
captured" error, capture-order does not propagate it as a failure: it
fetches the current order, re-reads the reservation, and — if the fetched
order is COMPLETED, or the reservation is already completed — returns the
same successful confirmed result (same snapshot, same resulting store) as
a first-time capture would; only the human-readable message differs. -/
theorem capture_already_captured_reconciles (envA : CaptureEnv) (now : Int)
    (uid : String) (req : CaptureReq) (store : List Appointment)
    (apt : Appointment) (e : PayPalError) (od : POrder)
    (hwf : wfStore store) (hoid : req.orderId ≠ "")
    (hfind : findAppointment store req.appointmentId uid req.orderId = some apt)
    (herr : envA.attempt = CaptureAttempt.thrown e)
    (hsniff : isOrderAlreadyCaptured e = true)
    (hfetch : envA.orderFetch = some od) :
    (apt.paymentStatus = PayStatus.completed →
      captureOrderHandler envA now uid req store =
        (CaptureResp.ok "Payment already completed" (snapOf apt), store)) ∧
    (apt.paymentStatus ≠ PayStatus.completed → od.status = "COMPLETED" →
      ∀ envB, envB.attempt = CaptureAttempt.ok od →
        envB.meetCreation = envA.meetCreation →
        captureOrderHandler envA now uid req store =
          (CaptureResp.ok "Payment was already completed"
             (snapOf (captureUpdated envA now req od apt)),
           saveApp store (captureUpdated envA now req od apt)) ∧
        captureOrderHandler envB now uid req store =
          (CaptureResp.ok "Payment completed successfully"
             (snapOf (captureUpdated envA now req od apt)),
           saveApp store (captureUpdated envA now req od apt))) := by
  have hbyid : findById store req.appointmentId = some apt :=
    findById_of_findAppointment store req.appointmentId uid req.orderId apt
      hwf hfind
  have hoidb : (req.orderId == "") = false := by simp [hoid]
  constructor
  · intro hdone
    have hps : (apt.paymentStatus == PayStatus.completed) = true := by
      simp [hdone]
    simp [captureOrderHandler, hoidb, hfind, hps, hbyid]
  · intro hpend hst envB hattB hmeet
    have hps : (apt.paymentStatus == PayStatus.completed) = false := by
      simp [hpend]
    have hstb : (od.status == "COMPLETED") = true := by simp [hst]
    obtain ⟨u1, u2, u3, u4, u5, u6, u7⟩ :=
      captureUpdated_fields envA now req od apt
    have hsave : findById (saveApp store (captureUpdated envA now req od apt))
        req.appointmentId = some (captureUpdated envA now req od apt) :=
      findById_saveApp store req.appointmentId apt _ hbyid (by rw [u3])
    have hBA : captureUpdated envB now req od apt =
        captureUpdated envA now req od apt :=
      captureUpdated_meet_only envB envA now req od apt hmeet
    constructor
    · simp [captureOrderHandler, hoidb, hfind, hps, herr, hsniff, hfetch,
        hbyid, updateAppointmentFromOrder, hstb, hsave]
    · have hsaveB : findById
          (saveApp store (captureUpdated envB now req od apt))
          req.appointmentId = some (captureUpdated envB now req od apt) := by
        rw [hBA]
        exact hsave
      simp [captureOrderHandler, hoidb, hfind, hps, hattB,
        updateAppointmentFromOrder, hstb, hsaveB, hBA, hsave]

/-- Witness for claim C2: capture of `ORD1` throws `ORDER_ALREADY_CAPTURED`,
the fetched order is COMPLETED; the handler confirms the reservation
exactly as the direct COMPLETED capture would. -/
theorem capture_already_captured_reconciles_witness :
    isOrderAlreadyCaptured acErr = true ∧
    captureOrderHandler acCompletedEnv 5000 "u1" wCapReq [sampleApt] =
      (CaptureResp.ok "Payment was already completed"
         (snapOf (captureUpdated acCompletedEnv 5000 wCapReq okOrder sampleApt)),
       saveApp [sampleApt]
         (captureUpdated acCompletedEnv 5000 wCapReq okOrder sampleApt)) :=
  ⟨by decide,
    ((capture_already_captured_reconciles acCompletedEnv 5000 "u1" wCapReq
        [sampleApt] sampleApt acErr okOrder (by unfold wfStore; decide)
        (by decide) (by decide) rfl (by decide) rfl).2 (by decide) rfl
      okCapEnv rfl rfl).1⟩

/-- Claim C9: a failure of the meeting-link provisioner during capture never
reverts or blocks payment confirmation: for a COMPLETED capture where
Meet-link creation throws, the reservation is persisted confirmed /
completed, the response reports success with meeting link null, and no
payment-failure error is surfaced. -/
theorem meet_link_failure_nonfatal (env : CaptureEnv) (now : Int)
    (uid : String) (req : CaptureReq) (store : List Appointment)
    (apt : Appointment) (ord : POrder)
    (hwf : wfStore store) (hoid : req.orderId ≠ "")
    (hfind : findAppointment store req.appointmentId uid req.orderId = some apt)
    (hpend : apt.paymentStatus ≠ PayStatus.completed)
    (hatt : env.attempt = CaptureAttempt.ok ord)
    (hst : ord.status = "COMPLETED")
    (hmeet : env.meetCreation = none)
    (hnolink : apt.googleMeetLink = none) :
    captureOrderHandler env now uid req store =
      (CaptureResp.ok "Payment completed successfully"
         (snapOf (captureUpdated env now req ord apt)),
       saveApp store (captureUpdated env now req ord apt)) ∧
    (captureUpdated env now req ord apt).status = Status.confirmed ∧
    (captureUpdated env now req ord apt).paymentStatus = PayStatus.completed ∧
    (captureUpdated env now req ord apt).googleMeetLink = none := by
  have hbyid : findById store req.appointmentId = some apt :=
    findById_of_findAppointment store req.appointmentId uid req.orderId apt
      hwf hfind
  have hoidb : (req.orderId == "") = false := by simp [hoid]
  have hps : (apt.paymentStatus == PayStatus.completed) = false := by
    simp [hpend]
  have hstb : (ord.status == "COMPLETED") = true := by simp [hst]
  obtain ⟨u1, u2, u3, u4, u5, u6, u7⟩ := captureUpdated_fields env now req ord apt
  have hsave : findById (saveApp store (captureUpdated env now req ord apt))
      req.appointmentId = some (captureUpdated env now req ord apt) :=
    findById_saveApp store req.appointmentId apt _ hbyid (by rw [u3])
  refine ⟨?_, u1, u2, captureUpdated_link_none env now req ord apt hnolink hmeet⟩
  simp [captureOrderHandler, hoidb, hfind, hps, hatt,
    updateAppointmentFromOrder, hstb, hsave]

/-- Witness for claim C9: COMPLETED capture with a throwing Meet-link call;
the reservation is confirmed and the response's meeting link is null. -/
theorem meet_link_failure_nonfatal_witness :
    captureOrderHandler okCapEnvNoMeet 5000 "u1" wCapReq [sampleApt] =
      (CaptureResp.ok "Payment completed successfully"
         (snapOf (captureUpdated okCapEnvNoMeet 5000 wCapReq okOrder sampleApt)),
       saveApp [sampleApt]
         (captureUpdated okCapEnvNoMeet 5000 wCapReq okOrder sampleApt)) ∧
    (captureUpdated okCapEnvNoMeet 5000 wCapReq okOrder
        sampleApt).googleMeetLink = none :=
  have h := meet_link_failure_nonfatal okCapEnvNoMeet 5000 "u1" wCapReq
    [sampleApt] sampleApt okOrder (by unfold wfStore; decide) (by decide)
    (by decide) (by decide) rfl rfl rfl (by decide)
  ⟨h.1, h.2.2.2⟩

/-- Counterexample to claim C4, refuting the claim as stated: on the
already-captured fallback path with a fetched non-COMPLETED status, the
handler responds `PAYMENT_NOT_COMPLETED` with the raw provider status but
does not persist `(pending, failed)` — the store is returned unchanged and
the reservation's paymentStatus is still `pending`, not `failed`. -/
theorem capture_notcompleted_persistence_counterexample :
    captureOrderHandler acPendEnv 5000 "u1" wCapReq [sampleApt] =
      (CaptureResp.err 400 "PAYMENT_NOT_COMPLETED" (some "PENDING"),
        [sampleApt]) ∧
    sampleApt.status = Status.pending ∧
    sampleApt.paymentStatus = PayStatus.pending ∧
    sampleApt.paymentStatus ≠ PayStatus.failed := by decide

/-- Claim C4 (amended): when the direct capture call returns a status other
than COMPLETED, the handler persists the reservation with paymentStatus
failed (status untouched, so never confirmed) and responds
`PAYMENT_NOT_COMPLETED` carrying the raw provider status; when the
non-COMPLETED status is instead observed through the already-captured
fallback's order fetch, the handler responds `PAYMENT_NOT_COMPLETED`
carrying the raw status but performs no store write. -/
theorem capture_notcompleted_behavior (env : CaptureEnv) (now : Int)
    (uid : String) (req : CaptureReq) (store : List Appointment)
    (apt : Appointment)
    (hoid : req.orderId ≠ "")
    (hfind : findAppointment store req.appointmentId uid req.orderId = some apt)
    (hpend : apt.paymentStatus ≠ PayStatus.completed) :
    (∀ ord, env.attempt = CaptureAttempt.ok ord → ord.status ≠ "COMPLETED" →
      captureOrderHandler env now uid req store =
        (CaptureResp.err 400 "PAYMENT_NOT_COMPLETED" (some ord.status),
         saveApp store { apt with
                           paymentStatus := PayStatus.failed,
                           paymentInfo := { apt.paymentInfo with
                                              status := PayStatus.failed } })) ∧
    (∀ e od, env.attempt = CaptureAttempt.thrown e →
      isOrderAlreadyCaptured e = true → env.orderFetch = some od →
      od.status ≠ "COMPLETED" →
      findById store req.appointmentId = some apt →
      captureOrderHandler env now uid req store =
        (CaptureResp.err 400 "PAYMENT_NOT_COMPLETED" (some od.status), store)) := by
  have hoidb : (req.orderId == "") = false := by simp [hoid]
  have hps : (apt.paymentStatus == PayStatus.completed) = false := by
    simp [hpend]
  constructor
  · intro ord hatt hst
    have hstb : (ord.status == "COMPLETED") = false := by simp [hst]
    simp [captureOrderHandler, hoidb, hfind, hps, hatt, hstb]
  · intro e od hatt hsniff hfetch hst hbyid
    have hstb : (od.status == "COMPLETED") = false := by simp [hst]
    simp [captureOrderHandler, hoidb, hfind, hps, hatt, hsniff, hfetch, hbyid,
      updateAppointmentFromOrder, hstb]

/-- Witness for amended claim C4: a DECLINED capture is persisted as
paymentStatus failed (status still pending) and reported with the raw
status. -/
theorem capture_notcompleted_behavior_witness :
    captureOrderHandler declinedEnv 5000 "u1" wCapReq [sampleApt] =
      (CaptureResp.err 400 "PAYMENT_NOT_COMPLETED" (some "DECLINED"),
       saveApp [sampleApt]
         { sampleApt with
             paymentStatus := PayStatus.failed,
             paymentInfo := { sampleApt.paymentInfo with
                                status := PayStatus.failed } }) :=
  (capture_notcompleted_behavior declinedEnv 5000 "u1" wCapReq [sampleApt]
      sampleApt (by decide) (by decide) (by decide)).1
    { status := "DECLINED", payerId := none, captureId := none } rfl (by decide)

/-- Claim C5: reservation creation fails with a 409 Conflict
(`SLOT_UNAVAILABLE` or `DUPLICATE_DATE_BOOKING`) whenever any requested
slot is live-reserved (confirmed, or pending/pending younger than 15
minutes) or the requesting user already holds a confirmed reservation on
that date; a storage-layer uniqueness violation (duplicate-key error
11000) during the write is remapped to the same 409 `SLOT_UNAVAILABLE`
Conflict. The first conjunct bridges the handler's first-conflict scan
with "some requested slot is live-reserved". -/
theorem create_conflict_409 (env : CreateEnv) (off now : Int) (uid : String)
    (req : CreateReq) (store : List Appointment)
    (hcfg : env.paypalConfigured = true)
    (hfields : req.date ≠ "" ∧ req.time ≠ "" ∧ req.userEmail ≠ "" ∧
      req.userName ≠ "")
    (hdr : dateRegexTest req.date = true)
    (htr : timeRegexTest req.time = true)
    (hbh : 540 ≤ (parseTimeHM req.time).1 * 60 + (parseTimeHM req.time).2 ∧
      (parseTimeHM req.time).1 * 60 + (parseTimeHM req.time).2 ≤ 1050 ∧
      (parseTimeHM req.time).2 % 30 = 0)
    (hnotpast : ¬ appointmentDateOf off req < todayLocal off now) :
    ((firstConflictSlot store (appointmentDateOf off req)
        (appointmentDateOf off req + (dayMs - 1)) (now - 900000)
        (slotsToCheckOf req)).isSome = true ↔
      ∃ s ∈ slotsToCheckOf req, ∃ a ∈ store,
        liveBlocks (appointmentDateOf off req)
          (appointmentDateOf off req + (dayMs - 1)) (now - 900000) s a = true) ∧
    (∀ s, firstConflictSlot store (appointmentDateOf off req)
        (appointmentDateOf off req + (dayMs - 1)) (now - 900000)
        (slotsToCheckOf req) = some s →
      createOrderHandler env off now uid req.userEmail req store =
        (CreateResp.err 409 "SLOT_UNAVAILABLE" (some s), store)) ∧
    (firstConflictSlot store (appointmentDateOf off req)
        (appointmentDateOf off req + (dayMs - 1)) (now - 900000)
        (slotsToCheckOf req) = none →
      (dupConfirmed store uid (appointmentDateOf off req)
        (appointmentDateOf off req + (dayMs - 1))).isSome = true →
      createOrderHandler env off now uid req.userEmail req store =
        (CreateResp.err 409 "DUPLICATE_DATE_BOOKING" none, store)) ∧
    (firstConflictSlot store (appointmentDateOf off req)
        (appointmentDateOf off req + (dayMs - 1)) (now - 900000)
        (slotsToCheckOf req) = none →
      (dupConfirmed store uid (appointmentDateOf off req)
        (appointmentDateOf off req + (dayMs - 1))).isSome = false →
      ∀ e, env.firstSave = some e → e.code = some 11000 →
      createOrderHandler env off now uid req.userEmail req store =
        (CreateResp.err 409 "SLOT_UNAVAILABLE" none, store)) := by
  obtain ⟨hf1, hf2, hf3, hf4⟩ := hfields
  obtain ⟨hb1, hb2, hb3⟩ := hbh
  have e1 : (req.date == "") = false := by simp [hf1]
  have e2 : (req.time == "") = false := by simp [hf2]
  have e3 : (req.userEmail == "") = false := by simp [hf3]
  have e4 : (req.userName == "") = false := by simp [hf4]
  have e5 : (decide ((parseTimeHM req.time).1 * 60 + (parseTimeHM req.time).2 < 540) ||
      decide (1050 < (parseTimeHM req.time).1 * 60 + (parseTimeHM req.time).2) ||
      ((parseTimeHM req.time).2 % 30 != 0)) = false := by
    simp only [Bool.or_eq_false_iff, decide_eq_false_iff_not, not_lt,
      bne_eq_false_iff_eq]
    exact ⟨⟨hb1, hb2⟩, hb3⟩
  refine ⟨?_, ?_, ?_, ?_⟩
  · simp only [firstConflictSlot, slotConflict, List.find?_isSome]
  · intro s hconf
    simp only [createOrderHandler, hcfg, Bool.not_true, Bool.false_eq_true,
      if_false, e1, e2, e3, e4, Bool.or_self, Bool.or_false, hdr, htr, e5]
    rw [if_neg hnotpast]
    simp only [bne_self_eq_false, Bool.false_eq_true, if_false, hconf]
  · intro hnone hdup
    simp only [createOrderHandler, hcfg, Bool.not_true, Bool.false_eq_true,
      if_false, e1, e2, e3, e4, Bool.or_self, Bool.or_false, hdr, htr, e5]
    rw [if_neg hnotpast]
    simp only [bne_self_eq_false, Bool.false_eq_true, if_false, hnone, hdup,
      if_true]
  · intro hnone hdup e hsave1 hcode
    have hcodeb : (e.code == some 11000) = true := by simp [hcode]
    simp only [createOrderHandler, hcfg, Bool.not_true, Bool.false_eq_true,
      if_false, e1, e2, e3, e4, Bool.or_self, Bool.or_false, hdr, htr, e5]
    rw [if_neg hnotpast]
    simp only [bne_self_eq_false, Bool.false_eq_true, if_false, hnone, hdup,
      hsave1, createCatch, hcodeb, if_true]

/-- Witness for claim C5: one minute into epoch day 30, user `u2` requests
slot 09:00 of that day while `u1` holds a young pending/pending hold on
it; creation answers 409 `SLOT_UNAVAILABLE` naming the slot. -/
theorem create_conflict_409_witness :
    firstConflictSlot [youngApt] (appointmentDateOf 0 wConflictReq)
        (appointmentDateOf 0 wConflictReq + (dayMs - 1))
        ((2592000000 + 60000) - 900000) (slotsToCheckOf wConflictReq) =
      some "09:00" ∧
    createOrderHandler okCreateEnv 0 (2592000000 + 60000) "u2"
        wConflictReq.userEmail wConflictReq [youngApt] =
      (CreateResp.err 409 "SLOT_UNAVAILABLE" (some "09:00"), [youngApt]) :=
  ⟨by decide,
    (create_conflict_409 okCreateEnv 0 (2592000000 + 60000) "u2" wConflictReq
        [youngApt] (by decide) (by decide) (by decide) (by decide) (by decide)
        (by decide)).2.1 "09:00" (by decide)⟩

/-- Counterexample to claim C3, refuting the claim as stated: a pending/pending
reservation 16⅔ minutes old occupies slot 09:00 of the queried date, yet
the availability endpoint still reports the slot unavailable — the claim
that an expired pending hold "never blocks availability" is false for the
report (the endpoint's query ignores both paymentStatus and age). -/
theorem availability_ttl_counterexample :
    sampleApt.status = Status.pending ∧
    sampleApt.paymentStatus = PayStatus.pending ∧
    sampleApt.createdAt < (2592000000 + 1000000) - 900000 ∧
    sampleApt.time = "09:00" ∧
    reportedAvailable
      (availableHandler 0 (2592000000 + 1000000) (some "1970-01-31")
        [sampleApt]) "09:00" = some false := by decide

/-- Claim C3 (amended): in create-order a requested slot is treated as
unavailable iff a confirmed reservation occupies it on the day, or a
pending/pending reservation with `createdAt` within the last 15 minutes
does — so an expired pending/pending hold never blocks a new booking; the
availability endpoint, however, reports a slot unavailable iff any
reservation with status confirmed or pending occupies (date, slot),
regardless of paymentStatus or age. -/
theorem slot_blocking_characterization (off now : Int) (ds : String)
    (store : List Appointment) (dayStart : Int) (t : String)
    (hdr : dateRegexTest ds = true)
    (hnotpast : ¬ utcMidnight (parseYMD ds).1 (parseYMD ds).2.1
      (parseYMD ds).2.2 < todayLocal off now)
    (ht : t ∈ generateTimeSlots) :
    ((slotConflict store dayStart (dayStart + (dayMs - 1)) (now - 900000)
        t).isSome = true ↔
      ∃ a ∈ store, dayStart ≤ a.date ∧ a.date ≤ dayStart + (dayMs - 1) ∧
        a.time = t ∧ (a.status = Status.confirmed ∨
          (a.status = Status.pending ∧ a.paymentStatus = PayStatus.pending ∧
            now - 900000 < a.createdAt))) ∧
    (reportedAvailable (availableHandler off now (some ds) store) t =
        some false ↔
      ∃ a ∈ store,
        a.date = utcMidnight (parseYMD ds).1 (parseYMD ds).2.1
          (parseYMD ds).2.2 ∧
        a.time = t ∧
        (a.status = Status.confirmed ∨ a.status = Status.pending)) := by
  constructor
  · simp only [slotConflict, List.find?_isSome, liveBlocks]
    constructor
    · rintro ⟨a, ha, hp⟩
      simp only [Bool.and_eq_true, Bool.or_eq_true, beq_iff_eq,
        decide_eq_true_eq] at hp
      exact ⟨a, ha, hp.1.1.1, hp.1.1.2, hp.1.2, by tauto⟩
    · rintro ⟨a, ha, h1, h2, h3, h4⟩
      refine ⟨a, ha, ?_⟩
      simp only [Bool.and_eq_true, Bool.or_eq_true, beq_iff_eq,
        decide_eq_true_eq]
      exact ⟨⟨⟨h1, h2⟩, h3⟩, by tauto⟩
  · simp only [availableHandler, hdr, Bool.not_true, Bool.false_eq_true,
      if_false]
    rw [if_neg hnotpast]
    simp only [reportedAvailable]
    rw [List.find?_map]
    have hfound : generateTimeSlots.find?
        ((fun s => s.time == t) ∘ fun t' => SlotInfo.mk t'
          (!((store.filter (fun a =>
              a.date == utcMidnight (parseYMD ds).1 (parseYMD ds).2.1
                (parseYMD ds).2.2 &&
              (a.status == Status.confirmed ||
                a.status == Status.pending))).map
            (fun a => a.time)).contains t')) = some t := by
      have hsome := List.find?_isSome.mpr
        (⟨t, ht, by simp⟩ : ∃ x, x ∈ generateTimeSlots ∧
          ((fun s => s.time == t) ∘ fun t' => SlotInfo.mk t'
            (!((store.filter (fun a =>
              a.date == utcMidnight (parseYMD ds).1 (parseYMD ds).2.1
                (parseYMD ds).2.2 &&
              (a.status == Status.confirmed ||
                a.status == Status.pending))).map
            (fun a => a.time)).contains t')) x = true)
      obtain ⟨x, hx⟩ := Option.isSome_iff_exists.mp hsome
      have : x = t := by
        have := List.find?_some hx
        simpa using this
      rw [this] at hx
      exact hx
    rw [hfound]
    simp only [Option.map_some']
    constructor
    · intro h
      apply (bookedTimes_contains_iff store
        (utcMidnight (parseYMD ds).1 (parseYMD ds).2.1 (parseYMD ds).2.2)
        t).mp
      have h3 := (Option.some.injEq _ _).mp h
      have h4 : (!((store.filter (fun a =>
          a.date == utcMidnight (parseYMD ds).1 (parseYMD ds).2.1
            (parseYMD ds).2.2 &&
          (a.status == Status.confirmed ||
            a.status == Status.pending))).map (fun a => a.time)).contains t) =
          false := h3
      have h5 := congrArg (fun b => !b) h4
      simpa using h5
    · intro hx
      have hb := (bookedTimes_contains_iff store
        (utcMidnight (parseYMD ds).1 (parseYMD ds).2.1 (parseYMD ds).2.2)
        t).mpr hx
      rw [hb]
      rfl

/-- Witness for amended claim C3 at a concrete store: slot 09:00 of
1970-01-31 with an expired pending hold on it. -/
theorem slot_blocking_characterization_witness :
    ((slotConflict [sampleApt] 2592000000 (2592000000 + (dayMs - 1))
        ((2592000000 + 1000000) - 900000) "09:00").isSome = true ↔
      ∃ a ∈ [sampleApt], 2592000000 ≤ a.date ∧
        a.date ≤ 2592000000 + (dayMs - 1) ∧ a.time = "09:00" ∧
        (a.status = Status.confirmed ∨
          (a.status = Status.pending ∧ a.paymentStatus = PayStatus.pending ∧
            (2592000000 + 1000000) - 900000 < a.createdAt))) ∧
    (reportedAvailable (availableHandler 0 (2592000000 + 1000000)
        (some "1970-01-31") [sampleApt]) "09:00" = some false ↔
      ∃ a ∈ [sampleApt],
        a.date = utcMidnight (parseYMD "1970-01-31").1
          (parseYMD "1970-01-31").2.1 (parseYMD "1970-01-31").2.2 ∧
        a.time = "09:00" ∧
        (a.status = Status.confirmed ∨ a.status = Status.pending)) :=
  slot_blocking_characterization 0 (2592000000 + 1000000) "1970-01-31"
    [sampleApt] 2592000000 "09:00" (by decide) (by decide) (by decide)

set_option maxHeartbeats 1000000 in
/-- Claim C10: the amount sent to the external payment order is always the
fixed 150.00 USD, regardless of any client-supplied price or duration:
`createOrderRequestBody` (whose signature has no price parameter, so the
caller's extra `meetingPrice` argument is dropped) hard-codes
`MEETING_PRICE`/`MEETING_CURRENCY` into every amount; the create-order
success response always reports amount 150.00 USD; and on capture
completion the stored `paymentInfo.amount`/`currency` are overwritten to
150.00 USD even if a different price was stored at creation. -/
theorem amount_fixed_150 (aid : String) (details : AppointmentDetails)
    (ru cu : String) (env : CreateEnv) (off now : Int) (uid em : String)
    (req : CreateReq) (store : List Appointment) (cenv : CaptureEnv)
    (cnow : Int) (cuid : String) (creq : CaptureReq)
    (cstore : List Appointment) (apt : Appointment) (ord : POrder) :
    (∀ pu ∈ (createOrderRequestBody aid details ru cu).purchaseUnits,
      pu.amount = { currencyCode := MEETING_CURRENCY, value := MEETING_PRICE } ∧
      pu.itemTotal =
        { currencyCode := MEETING_CURRENCY, value := MEETING_PRICE } ∧
      ∀ it ∈ pu.items, it.unitAmount =
        { currencyCode := MEETING_CURRENCY, value := MEETING_PRICE }) ∧
    (∀ oid url apid amt cur,
      (createOrderHandler env off now uid em req store).1 =
        CreateResp.created oid url apid amt cur →
      amt = "150.00" ∧ cur = "USD") ∧
    (findAppointment cstore creq.appointmentId cuid creq.orderId = some apt →
      apt.paymentStatus ≠ PayStatus.completed →
      cenv.attempt = CaptureAttempt.ok ord → ord.status = "COMPLETED" →
      creq.orderId ≠ "" →
      ∀ b ∈ (captureOrderHandler cenv cnow cuid creq cstore).2,
        b.id = apt.id →
        b.paymentInfo.amount = "150.00" ∧ b.paymentInfo.currency = "USD") := by
  refine ⟨?_, ?_, ?_⟩
  · intro pu hpu
    simp only [createOrderRequestBody, List.mem_singleton] at hpu
    subst hpu
    refine ⟨rfl, rfl, ?_⟩
    intro it hit
    simp only [List.mem_singleton] at hit
    subst hit
    rfl
  · intro oid url apid amt cur h
    unfold createOrderHandler at h
    repeat' split at h
    all_goals simp_all [MEETING_PRICE, MEETING_CURRENCY, createCatch]
    all_goals repeat' split at h
    all_goals simp_all
  · intro hfind hpend hatt hst hoid b hb hid
    have hoidb : (creq.orderId == "") = false := by simp [hoid]
    have hps : (apt.paymentStatus == PayStatus.completed) = false := by
      simp [hpend]
    have hstb : (ord.status == "COMPLETED") = true := by simp [hst]
    obtain ⟨u1, u2, u3, u4, u5, u6, u7⟩ :=
      captureUpdated_fields cenv cnow creq ord apt
    have hstore : (captureOrderHandler cenv cnow cuid creq cstore).2 =
        saveApp cstore (captureUpdated cenv cnow creq ord apt) := by
      simp [captureOrderHandler, hoidb, hfind, hps, hatt,
        updateAppointmentFromOrder, hstb]
    rw [hstore] at hb
    have hb2 : b = captureUpdated cenv cnow creq ord apt :=
      mem_saveApp_of_id cstore _ b hb (by rw [hid, u3])
    rw [hb2]
    exact ⟨u6, u7⟩

/-- Witness for claim C10: capturing a reservation whose stored price was
999.99 EUR overwrites the payment info with 150.00 USD. -/
theorem amount_fixed_150_witness :
    priceyApt.paymentInfo.amount = "999.99" ∧
    (captureUpdated okCapEnv 5000 wCapReq okOrder priceyApt) ∈
      (captureOrderHandler okCapEnv 5000 "u1" wCapReq [priceyApt]).2 ∧
    (captureUpdated okCapEnv 5000 wCapReq okOrder
        priceyApt).paymentInfo.amount = "150.00" ∧
    (captureUpdated okCapEnv 5000 wCapReq okOrder
        priceyApt).paymentInfo.currency = "USD" :=
  have h := (amount_fixed_150 "A1" ⟨"1970-01-31", "09:00", "N", "e@x.y"⟩
      "r" "c" okCreateEnv 0 0 "u1" "e@x.y" wConflictReq [] okCapEnv 5000 "u1"
      wCapReq [priceyApt] priceyApt okOrder).2.2 (by decide) (by decide) rfl
      rfl (by decide) (captureUpdated okCapEnv 5000 wCapReq okOrder priceyApt)
      (by decide) (by decide)
  ⟨by decide, by decide, h.1, h.2⟩

end Auxin
